import Mathlib

/-!
# Verification development for the renderer bootstrap (`GameEngine`)

Shallow embedding of `src/src/GameEngine.cpp`, `src/src/GameEngine.hpp` and
`src/src/QueueFamilyIndices.hpp`.

* Values the graphics runtime reports for a physical device (properties, features, queue
  families) are fields of the device record: the C++ code obtains them through query calls
  on the device handle.
* `uint32_t` values are `Nat` with explicit reduction modulo `2 ^ 32`; the C++ `int` is a
  32-bit two's complement integer, embedded in `Int` through `toInt32`.
* C strings are `String`; `strcmp(a, b) == 0` is equality of the two strings.
* Calls into the windowing library and the graphics runtime are recorded as a trace of
  `Event`s; a C++ `throw` is the outcome `thrown`, and an execution the C++ standard
  gives no meaning to is the outcome `undefined`.
-/

namespace GameEngine

/-! ## Machine integers -/

/-- Reduction of a natural number to the range of `uint32_t`. -/
def wrapU32 (n : Nat) : Nat := n % 2 ^ 32

/-- Conversion of an `int` to `uint32_t` (usual arithmetic conversions). -/
def intToU32 (i : Int) : Nat := (i % 2 ^ 32).toNat

/-- Conversion of a `uint32_t` value to a 32-bit two's complement `int`. -/
def toInt32 (n : Nat) : Int :=
  if wrapU32 n < 2 ^ 31 then (wrapU32 n : Int) else (wrapU32 n : Int) - 2 ^ 32

/-- The statement `score += u` for `int score` and `uint32_t u`: the sum is computed in
`uint32_t` and converted back to `int`. -/
def addAssignU32 (score : Int) (u : Nat) : Int :=
  toInt32 (wrapU32 (intToU32 score + wrapU32 u))

/-! ## Data model -/

/-- The device types of the graphics API (`VkPhysicalDeviceType`). -/
inductive VkPhysicalDeviceType
  | OTHER
  | INTEGRATED_GPU
  | DISCRETE_GPU
  | VIRTUAL_GPU
  | CPU
  deriving DecidableEq, Repr

/-- The graphics bit of `VkQueueFlags` (`VK_QUEUE_GRAPHICS_BIT`). -/
def VK_QUEUE_GRAPHICS_BIT : Nat := 1

/-- One entry of `vkGetPhysicalDeviceQueueFamilyProperties`. -/
structure VkQueueFamilyProperties where
  queueFlags : Nat
  deriving DecidableEq, Repr

/-- What the runtime reports for one physical device handle:
`deviceProperties.deviceType`, `deviceProperties.limits.maxImageDimension2D`,
`deviceProperties.limits.maxImageDimension3D` (both `uint32_t`),
`deviceFeatures.geometryShader` (a `VkBool32`) and the queue family list. -/
structure VkPhysicalDevice where
  deviceType : VkPhysicalDeviceType
  maxImageDimension2D : Nat
  maxImageDimension3D : Nat
  geometryShader : Nat
  queueFamilyProperties : List VkQueueFamilyProperties
  deriving DecidableEq, Repr

/-- The struct of `QueueFamilyIndices.hpp`: `std::optional<uint32_t> graphicsFamily`. -/
structure QueueFamilyIndices where
  graphicsFamily : Option Nat
  deriving DecidableEq, Repr

/-- Modelled from the spec: the body of `QueueFamilyIndices::isComplete`, which the header
only declares. The spec's data model: "complete" iff the graphics index is present. -/
def QueueFamilyIndices.isComplete (indices : QueueFamilyIndices) : Bool :=
  indices.graphicsFamily.isSome

/-! ## Queue family query and device rating -/

/-- The range-for loop of `findQueueFamilies` (GameEngine.cpp 286-298), from the element at
position `index` on. -/
def findQueueFamiliesLoop :
    List VkQueueFamilyProperties → Nat → QueueFamilyIndices → QueueFamilyIndices
  | [], _, indices => indices
  | properties :: rest, index, indices =>
    let indices : QueueFamilyIndices :=
      if properties.queueFlags &&& VK_QUEUE_GRAPHICS_BIT ≠ 0 then
        { indices with graphicsFamily := some index }
      else indices
    if indices.isComplete then indices
    else findQueueFamiliesLoop rest (index + 1) indices

/-- `GameEngine::findQueueFamilies` (GameEngine.cpp 278-301). -/
def findQueueFamilies (physicalDevice : VkPhysicalDevice) : QueueFamilyIndices :=
  findQueueFamiliesLoop physicalDevice.queueFamilyProperties 0 { graphicsFamily := none }

/-- `GameEngine::rateDevice` (GameEngine.cpp 87-109). -/
def rateDevice (physicalDevice : VkPhysicalDevice) : Int :=
  let indices := findQueueFamilies physicalDevice
  if physicalDevice.geometryShader = 0 ∨ indices.isComplete = false then
    0
  else
    let score : Int := 0
    let score : Int :=
      if physicalDevice.deviceType = VkPhysicalDeviceType.DISCRETE_GPU then score + 1000
      else score
    addAssignU32 score
      (wrapU32 (wrapU32 physicalDevice.maxImageDimension2D
        + wrapU32 physicalDevice.maxImageDimension3D))

/-- The bonus of the device type in the score formula. -/
def discreteBonus (t : VkPhysicalDeviceType) : Nat :=
  if t = VkPhysicalDeviceType.DISCRETE_GPU then 1000 else 0

/-! ## Validation layers and extensions -/

/-- One entry of `vkEnumerateInstanceLayerProperties`; only `layerName` is read. -/
structure VkLayerProperties where
  layerName : String
  deriving DecidableEq, Repr

/-- One entry of `vkEnumerateInstanceExtensionProperties`; only `extensionName` is read. -/
structure VkExtensionProperties where
  extensionName : String
  deriving DecidableEq, Repr

/-- The member `validationLayers` of GameEngine.hpp 50-52. -/
def validationLayers : List String := ["VK_LAYER_KHRONOS_validation"]

/-- The name `VK_EXT_DEBUG_UTILS_EXTENSION_NAME` of the graphics API headers. -/
def VK_EXT_DEBUG_UTILS_EXTENSION_NAME : String := "VK_EXT_debug_utils"

/-- The inner loop of `areValidationLayersSupported` (GameEngine.cpp 182-189): the value of
`layerFound` when the loop over the available layers ends. -/
def layerFound (layerName : String) : List VkLayerProperties → Bool
  | [] => false
  | layerProperties :: rest =>
    if layerName = layerProperties.layerName then true else layerFound layerName rest

/-- The outer loop of `areValidationLayersSupported` (GameEngine.cpp 181-196) over the
requested names that remain. -/
def areValidationLayersSupportedLoop (availableLayers : List VkLayerProperties) :
    List String → Bool
  | [] => true
  | layerName :: rest =>
    if layerFound layerName availableLayers = false then false
    else areValidationLayersSupportedLoop availableLayers rest

/-- `GameEngine::areValidationLayersSupported` (GameEngine.cpp 174-197); the first argument
is the member `this->validationLayers`, the second what the runtime enumerates. -/
def areValidationLayersSupported (requestedLayers : List String)
    (availableLayers : List VkLayerProperties) : Bool :=
  areValidationLayersSupportedLoop availableLayers requestedLayers

/-- The inner loop of `checkExtensions` (GameEngine.cpp 146-154) for one runtime extension:
the requested name that is printed when one compares equal, `none` when `supported` stays
false. -/
def findSupported (extension : VkExtensionProperties) : List String → Option String
  | [] => none
  | supportedExtension :: rest =>
    if supportedExtension = extension.extensionName then some supportedExtension
    else findSupported extension rest

/-- The outer loop of `checkExtensions` (GameEngine.cpp 145-159): the names printed with a
tab, and the vector `unsupportedExtensions`, both in iteration order. -/
def checkExtensionsLoop (supportedExtensions : List String) :
    List VkExtensionProperties → List String × List String
  | [] => ([], [])
  | extension :: rest =>
    let tail := checkExtensionsLoop supportedExtensions rest
    match findSupported extension supportedExtensions with
    | some supportedExtension => (supportedExtension :: tail.1, tail.2)
    | none => (tail.1, extension.extensionName :: tail.2)

/-- What `checkExtensions` writes to `std::cout`: the count before " supported extensions:"
(absent when the first argument is empty), the names printed after it, the count before
" unsupported extensions:" (absent when there are none) and the names printed after it. -/
structure ExtensionReport where
  supportedCount : Option Nat
  supportedPrinted : List String
  unsupportedCount : Option Nat
  unsupportedPrinted : List String
  deriving DecidableEq, Repr

/-- `GameEngine::checkExtensions` (GameEngine.cpp 137-172). The first argument is the list
the caller passes as `supportedExtensions` (the required extensions), the second the
extensions the runtime enumerates. -/
def checkExtensions (supportedExtensions : List String)
    (extensions : List VkExtensionProperties) : ExtensionReport :=
  let loop := checkExtensionsLoop supportedExtensions extensions
  let unsupportedExtensions := loop.2
  { supportedCount :=
      if supportedExtensions ≠ [] then some supportedExtensions.length else none
    supportedPrinted := loop.1
    unsupportedCount :=
      if unsupportedExtensions ≠ [] then some unsupportedExtensions.length else none
    unsupportedPrinted := if unsupportedExtensions ≠ [] then unsupportedExtensions else [] }

/-- The names of the extensions the runtime enumerates, in order. -/
def extensionNames (extensions : List VkExtensionProperties) : List String :=
  extensions.map fun extension => extension.extensionName

/-! ## Executions: traces and outcomes -/

/-- The calls and outputs an execution performs that the properties below speak about. -/
inductive Event
  | glfwInit
  | glfwWindowHint
  | glfwCreateWindow (width height : Int)
  | stdout (report : ExtensionReport)
  | vkCreateInstance (enabledExtensions enabledLayers : List String) (debugChained : Bool)
  | vkCreateDebugUtilsMessengerEXT
  | glfwPollEvents
  | vkDestroyDebugUtilsMessengerEXT
  | vkDestroyInstance
  | glfwDestroyWindow
  | glfwTerminate
  | vkEnumeratePhysicalDevices
  | rateDevice (physicalDevice : VkPhysicalDevice)
  deriving DecidableEq, Repr

/-- How an execution ends: it returns a value, it throws `std::runtime_error(what)`, or it
performs an operation the C++ standard leaves undefined. -/
inductive Outcome (α : Type)
  | returned (value : α)
  | thrown (what : String)
  | undefined
  deriving DecidableEq, Repr

/-- An execution: the events performed, in order, and how it ended. -/
structure Exec (α : Type) where
  trace : List Event
  outcome : Outcome α
  deriving DecidableEq, Repr

/-- Return without any event. -/
def Exec.ret {α : Type} (value : α) : Exec α :=
  { trace := [], outcome := Outcome.returned value }

/-- One call, recorded in the trace. -/
def Exec.emit (e : Event) : Exec Unit :=
  { trace := [e], outcome := Outcome.returned () }

/-- The statement `throw std::runtime_error(what)`. -/
def Exec.raise {α : Type} (what : String) : Exec α :=
  { trace := [], outcome := Outcome.thrown what }

/-- An operation without defined behaviour. -/
def Exec.undef {α : Type} : Exec α :=
  { trace := [], outcome := Outcome.undefined }

/-- Sequencing: the continuation runs only when the first part returned. -/
def Exec.andThen {α β : Type} (x : Exec α) (f : α → Exec β) : Exec β :=
  match x.outcome with
  | Outcome.returned value =>
    { trace := x.trace ++ (f value).trace, outcome := (f value).outcome }
  | Outcome.thrown what => { trace := x.trace, outcome := Outcome.thrown what }
  | Outcome.undefined => { trace := x.trace, outcome := Outcome.undefined }

/-! ## The environment -/

/-- The result code `VK_SUCCESS`. -/
def VK_SUCCESS : Int := 0

/-- The result code `VK_ERROR_EXTENSION_NOT_PRESENT`. -/
def VK_ERROR_EXTENSION_NOT_PRESENT : Int := -7

/-- What the windowing library and the graphics runtime answer during one run:
the enumerated layers and extensions, the extensions the windowing library requires, the
result of `vkCreateInstance`, whether `vkGetInstanceProcAddr` resolves a command name, the
result of the resolved `vkCreateDebugUtilsMessengerEXT`, the physical devices, and how
often `glfwWindowShouldClose` answers false before it answers true (runs in which the
window is never closed do not leave `mainLoop` and are not described). -/
structure Runtime where
  availableLayers : List VkLayerProperties
  glfwRequiredInstanceExtensions : List String
  availableExtensions : List VkExtensionProperties
  vkCreateInstanceResult : Int
  procAddrResolved : String → Bool
  vkCreateDebugUtilsMessengerResult : Int
  physicalDevices : List VkPhysicalDevice
  pollsBeforeClose : Nat

/-! ## Physical device selection -/

/-- Insertion into `std::multimap<int, VkPhysicalDevice>`, kept as the list of its entries
in iteration order: keys ascending, an entry with an equal key after those present. -/
def multimapInsert (entry : Int × VkPhysicalDevice) :
    List (Int × VkPhysicalDevice) → List (Int × VkPhysicalDevice)
  | [] => [entry]
  | x :: rest =>
    if entry.1 < x.1 then entry :: x :: rest else x :: multimapInsert entry rest

/-- The loop of `selectPhysicalDevice` (GameEngine.cpp 76-78) over the elements of the
vector `physicalDevices`. -/
def rateAll : List VkPhysicalDevice → List (Int × VkPhysicalDevice) →
    Exec (List (Int × VkPhysicalDevice))
  | [], scores => Exec.ret scores
  | device :: rest, scores =>
    (Exec.emit (Event.rateDevice device)).andThen fun _ =>
      rateAll rest (multimapInsert (rateDevice device, device) scores)

/-- `GameEngine::selectPhysicalDevice` (GameEngine.cpp 61-85); the value returned is the
local `physicalDevice` at the end of the function.

Line 71 declares `std::vector<VkPhysicalDevice> physicalDevices;` without a size, so the
vector has no elements; the call of line 72 receives `physicalDevices.data()` and cannot
change the size of the vector. The loop of lines 76-78 therefore runs over no element,
and lines 80-81 dereference `scores.rbegin()` of a multimap without entries. -/
def selectPhysicalDevice (rt : Runtime) : Exec VkPhysicalDevice :=
  (Exec.emit Event.vkEnumeratePhysicalDevices).andThen fun _ =>
  let physicalDeviceCount := rt.physicalDevices.length
  if physicalDeviceCount = 0 then
    Exec.raise "Vulkan-supporting GPU not found"
  else
    let physicalDevices : List VkPhysicalDevice := []
    (Exec.emit Event.vkEnumeratePhysicalDevices).andThen fun _ =>
    (rateAll physicalDevices []).andThen fun scores =>
    match scores.getLast? with
    | none => Exec.undef
    | some rbegin =>
      if rbegin.1 > 0 then Exec.ret rbegin.2
      else Exec.raise "suitable GPU not found"

/-! ## Instance creation, debug messenger, window, loop and teardown -/

/-- `GameEngine::getRequiredExtensions` (GameEngine.cpp 199-209). -/
def getRequiredExtensions (enableValidationLayers : Bool) (rt : Runtime) : List String :=
  let extensions := rt.glfwRequiredInstanceExtensions
  if enableValidationLayers then extensions ++ [VK_EXT_DEBUG_UTILS_EXTENSION_NAME]
  else extensions

/-- `GameEngine::createInstance` (GameEngine.cpp 221-276). -/
def createInstance (enableValidationLayers : Bool) (rt : Runtime) : Exec Unit :=
  if enableValidationLayers
      && !areValidationLayersSupported validationLayers rt.availableLayers then
    Exec.raise "requested validation layers are unavailable"
  else
    let glfwExtensions := getRequiredExtensions enableValidationLayers rt
    let enabledLayers := if enableValidationLayers then validationLayers else []
    (Exec.emit (Event.stdout (checkExtensions glfwExtensions rt.availableExtensions))).andThen
      fun _ =>
    (Exec.emit
      (Event.vkCreateInstance glfwExtensions enabledLayers enableValidationLayers)).andThen
      fun _ =>
    if rt.vkCreateInstanceResult ≠ VK_SUCCESS then Exec.raise "Instantiation failed."
    else Exec.ret ()

/-- The helper `createDebugUtilsMessengerEXT` (GameEngine.cpp 10-20). -/
def createDebugUtilsMessengerEXT (rt : Runtime) : Exec Int :=
  if rt.procAddrResolved "vkCreateDebugUtilsMessengerEXT" then
    (Exec.emit Event.vkCreateDebugUtilsMessengerEXT).andThen fun _ =>
      Exec.ret rt.vkCreateDebugUtilsMessengerResult
  else Exec.ret VK_ERROR_EXTENSION_NOT_PRESENT

/-- The helper `destroyDebugUtilsMessengerEXT` (GameEngine.cpp 22-30). -/
def destroyDebugUtilsMessengerEXT (rt : Runtime) : Exec Unit :=
  if rt.procAddrResolved "vkDestroyDebugUtilsMessengerEXT" then
    Exec.emit Event.vkDestroyDebugUtilsMessengerEXT
  else Exec.ret ()

/-- `GameEngine::setupDebugMessenger` (GameEngine.cpp 111-122). -/
def setupDebugMessenger (enableValidationLayers : Bool) (rt : Runtime) : Exec Unit :=
  if !enableValidationLayers then Exec.ret ()
  else
    (createDebugUtilsMessengerEXT rt).andThen fun result =>
      if result ≠ VK_SUCCESS then Exec.raise "Debug messenger setup failed."
      else Exec.ret ()

/-- The member `WIDTH`, which the constructor sets to 1440 whatever its argument. -/
def WIDTH : Int := 1440

/-- The member `HEIGHT`, which the constructor sets to 900 whatever its argument. -/
def HEIGHT : Int := 900

/-- `GameEngine::initWindow` (GameEngine.cpp 43-48). -/
def initWindow : Exec Unit :=
  (Exec.emit Event.glfwInit).andThen fun _ =>
  (Exec.emit Event.glfwWindowHint).andThen fun _ =>
  Exec.emit (Event.glfwCreateWindow WIDTH HEIGHT)

/-- `GameEngine::initVulkan` (GameEngine.cpp 56-59). -/
def initVulkan (enableValidationLayers : Bool) (rt : Runtime) : Exec Unit :=
  (createInstance enableValidationLayers rt).andThen fun _ =>
  setupDebugMessenger enableValidationLayers rt

/-- The loop of `mainLoop` with `polls` more answers "false" of `glfwWindowShouldClose`. -/
def mainLoopFrom : Nat → Exec Unit
  | 0 => Exec.ret ()
  | polls + 1 => (Exec.emit Event.glfwPollEvents).andThen fun _ => mainLoopFrom polls

/-- `GameEngine::mainLoop` (GameEngine.cpp 50-54). -/
def mainLoop (rt : Runtime) : Exec Unit :=
  mainLoopFrom rt.pollsBeforeClose

/-- `GameEngine::cleanup` (GameEngine.cpp 303-313). -/
def cleanup (enableValidationLayers : Bool) (rt : Runtime) : Exec Unit :=
  (if enableValidationLayers then destroyDebugUtilsMessengerEXT rt else Exec.ret ()).andThen
    fun _ =>
  (Exec.emit Event.vkDestroyInstance).andThen fun _ =>
  (Exec.emit Event.glfwDestroyWindow).andThen fun _ =>
  Exec.emit Event.glfwTerminate

/-- `GameEngine::run` (GameEngine.cpp 34-39). -/
def run (enableValidationLayers : Bool) (rt : Runtime) : Exec Unit :=
  initWindow.andThen fun _ =>
  (initVulkan enableValidationLayers rt).andThen fun _ =>
  (mainLoop rt).andThen fun _ =>
  cleanup enableValidationLayers rt

/-! ## Resources -/

/-- The resources the application owns. -/
inductive Resource
  | windowingSubsystem
  | window
  | vkInstance
  | debugMessenger
  deriving DecidableEq, Repr

/-- The resource a call acquires, if any. -/
def Event.acquires : Event → Option Resource
  | Event.glfwInit => some Resource.windowingSubsystem
  | Event.glfwCreateWindow _ _ => some Resource.window
  | Event.vkCreateInstance _ _ _ => some Resource.vkInstance
  | Event.vkCreateDebugUtilsMessengerEXT => some Resource.debugMessenger
  | _ => none

/-- The resource a call releases, if any. -/
def Event.releases : Event → Option Resource
  | Event.glfwTerminate => some Resource.windowingSubsystem
  | Event.glfwDestroyWindow => some Resource.window
  | Event.vkDestroyInstance => some Resource.vkInstance
  | Event.vkDestroyDebugUtilsMessengerEXT => some Resource.debugMessenger
  | _ => none

/-- The resources a trace acquires, in order. -/
def acquired (trace : List Event) : List Resource := trace.filterMap Event.acquires

/-- The resources a trace releases, in order. -/
def released (trace : List Event) : List Resource := trace.filterMap Event.releases

/-- Whether an event belongs to physical device selection. -/
def Event.isDeviceSelection : Event → Bool
  | Event.vkEnumeratePhysicalDevices => true
  | Event.rateDevice _ => true
  | _ => false

/-! ## Example inputs -/

/-- A queue family with the graphics bit (and compute, transfer). -/
def graphicsQueueFamily : VkQueueFamilyProperties := { queueFlags := 7 }

/-- A queue family without the graphics bit (transfer only). -/
def transferQueueFamily : VkQueueFamilyProperties := { queueFlags := 4 }

/-- Candidate A of the selection scenario: discrete, 4096 and 2048. -/
def candidateA : VkPhysicalDevice :=
  { deviceType := VkPhysicalDeviceType.DISCRETE_GPU, maxImageDimension2D := 4096,
    maxImageDimension3D := 2048, geometryShader := 1,
    queueFamilyProperties := [graphicsQueueFamily] }

/-- Candidate B of the selection scenario: integrated, 8192 and 4096. -/
def candidateB : VkPhysicalDevice :=
  { deviceType := VkPhysicalDeviceType.INTEGRATED_GPU, maxImageDimension2D := 8192,
    maxImageDimension3D := 4096, geometryShader := 1,
    queueFamilyProperties := [graphicsQueueFamily] }

/-- A device without geometry shader support. -/
def noGeometryDevice : VkPhysicalDevice :=
  { candidateA with geometryShader := 0 }

/-- A device none of whose queue families has the graphics bit. -/
def noGraphicsQueueDevice : VkPhysicalDevice :=
  { candidateA with queueFamilyProperties := [transferQueueFamily] }

/-- A discrete device whose two image limits are `2 ^ 31` each. -/
def hugeLimitsDevice : VkPhysicalDevice :=
  { candidateA with maxImageDimension2D := 2147483648, maxImageDimension3D := 2147483648 }

/-- A runtime on which every step of a release build succeeds and the window is closed
after two polls. -/
def plainRuntime : Runtime :=
  { availableLayers := [{ layerName := "VK_LAYER_KHRONOS_validation" },
      { layerName := "VK_LAYER_OTHER" }]
    glfwRequiredInstanceExtensions := ["VK_KHR_surface", "VK_KHR_xcb_surface"]
    availableExtensions := [{ extensionName := "VK_KHR_surface" },
      { extensionName := "VK_KHR_xcb_surface" }, { extensionName := "VK_EXT_debug_utils" }]
    vkCreateInstanceResult := 0
    procAddrResolved := fun _ => true
    vkCreateDebugUtilsMessengerResult := 0
    physicalDevices := [candidateA, candidateB]
    pollsBeforeClose := 2 }

/-! ## Helper lemmas on machine integers -/

theorem wrapU32_of_lt {n : Nat} (h : n < 2 ^ 32) : wrapU32 n = n := by
  unfold wrapU32
  exact Nat.mod_eq_of_lt h

theorem toInt32_of_lt {n : Nat} (h : n < 2 ^ 31) : toInt32 n = (n : Int) := by
  have h32 : n < 2 ^ 32 := by omega
  unfold toInt32
  rw [wrapU32_of_lt h32, if_pos h]

theorem intToU32_ofNat {n : Nat} (h : n < 2 ^ 32) : intToU32 (n : Int) = n := by
  unfold intToU32
  have : ((n : Int) % 2 ^ 32) = (n : Int) := by
    apply Int.emod_eq_of_lt <;> omega
  rw [this]
  simp

theorem addAssignU32_exact {s u : Nat} (h : s + u < 2 ^ 31) :
    addAssignU32 (s : Int) u = (s : Int) + (u : Int) := by
  have hs : s < 2 ^ 32 := by omega
  have hu : u < 2 ^ 32 := by omega
  have hsu : s + u < 2 ^ 32 := by omega
  unfold addAssignU32
  rw [intToU32_ofNat hs, wrapU32_of_lt hu, wrapU32_of_lt hsu, toInt32_of_lt h]
  push_cast
  rfl

/-! ## Helper lemmas on the queue family query -/

theorem findQueueFamiliesLoop_of_complete (families : List VkQueueFamilyProperties)
    (index found : Nat) :
    (findQueueFamiliesLoop families index { graphicsFamily := some found }).isComplete
      = true := by
  cases families with
  | nil => rfl
  | cons properties rest =>
    unfold findQueueFamiliesLoop
    by_cases hbit : properties.queueFlags &&& VK_QUEUE_GRAPHICS_BIT ≠ 0
    · simp [hbit, QueueFamilyIndices.isComplete]
    · simp [hbit, QueueFamilyIndices.isComplete]

theorem findQueueFamiliesLoop_none_iff (families : List VkQueueFamilyProperties)
    (index : Nat) :
    (findQueueFamiliesLoop families index { graphicsFamily := none }).graphicsFamily = none
      ↔ ∀ properties ∈ families, properties.queueFlags &&& VK_QUEUE_GRAPHICS_BIT = 0 := by
  induction families generalizing index with
  | nil => simp [findQueueFamiliesLoop]
  | cons properties rest ih =>
    unfold findQueueFamiliesLoop
    by_cases hbit : properties.queueFlags &&& VK_QUEUE_GRAPHICS_BIT = 0
    · simp [hbit, QueueFamilyIndices.isComplete, ih]
    · simp [hbit, QueueFamilyIndices.isComplete]

/-- The query finds no graphics family exactly when no reported family has the graphics
bit. -/
theorem findQueueFamilies_none_iff (d : VkPhysicalDevice) :
    (findQueueFamilies d).graphicsFamily = none
      ↔ ∀ properties ∈ d.queueFamilyProperties,
          properties.queueFlags &&& VK_QUEUE_GRAPHICS_BIT = 0 :=
  findQueueFamiliesLoop_none_iff d.queueFamilyProperties 0

theorem isComplete_eq_false_iff (indices : QueueFamilyIndices) :
    indices.isComplete = false ↔ indices.graphicsFamily = none := by
  cases indices with
  | mk g => cases g <;> simp [QueueFamilyIndices.isComplete]

/-! ## Helper lemmas on the score arithmetic -/

theorem toInt32_wrapU32 (n : Nat) : toInt32 (wrapU32 n) = toInt32 n := by
  unfold toInt32 wrapU32
  rw [Nat.mod_mod]

theorem wrapU32_add_wrapped (a m2 m3 : Nat) :
    wrapU32 (a + wrapU32 (wrapU32 (wrapU32 m2 + wrapU32 m3))) = wrapU32 (a + m2 + m3) := by
  unfold wrapU32
  omega

theorem rateDevice_of_suitable (d : VkPhysicalDevice) (hg : d.geometryShader ≠ 0)
    (hq : (findQueueFamilies d).isComplete = true) :
    rateDevice d = toInt32
      (discreteBonus d.deviceType + d.maxImageDimension2D + d.maxImageDimension3D) := by
  unfold rateDevice discreteBonus addAssignU32
  simp only [hg, hq, false_or, Bool.true_eq_false, if_false]
  by_cases ht : d.deviceType = VkPhysicalDeviceType.DISCRETE_GPU
  · simp only [ht, if_true]
    have h1000 : intToU32 (0 + 1000) = 1000 := by decide
    rw [h1000, toInt32_wrapU32, ← toInt32_wrapU32 (1000 + _ + _),
      ← wrapU32_add_wrapped 1000 _ _, toInt32_wrapU32]
  · simp only [ht, if_false]
    have h0 : intToU32 0 = 0 := by decide
    rw [h0, toInt32_wrapU32, ← toInt32_wrapU32 (0 + _ + _),
      ← wrapU32_add_wrapped 0 _ _, toInt32_wrapU32]

/-! ## Device rating (C1, C2) -/

/-- C1: a physical device whose feature set lacks geometry-shader support, or for which
`findQueueFamilies` yields no graphics-family index (`isComplete` is false), is rated
exactly 0 by `rateDevice`, whatever its device type and its two image-dimension limits. -/
theorem rateDevice_eq_zero_of_unsuitable (d : VkPhysicalDevice)
    (h : d.geometryShader = 0 ∨ (findQueueFamilies d).isComplete = false) :
    rateDevice d = 0
    ∧ ∀ (t : VkPhysicalDeviceType) (m2 m3 : Nat),
        rateDevice { d with deviceType := t, maxImageDimension2D := m2,
                            maxImageDimension3D := m3 } = 0 := by
  constructor
  · unfold rateDevice
    simp only [h, if_true]
  · intro t m2 m3
    have h2 : d.geometryShader = 0
        ∨ (findQueueFamiliesLoop d.queueFamilyProperties 0
            { graphicsFamily := none }).isComplete = false := h
    unfold rateDevice findQueueFamilies
    simp only [h2, if_true]

theorem rateDevice_eq_zero_of_unsuitable_witness :
    (noGeometryDevice.geometryShader = 0
      ∨ (findQueueFamilies noGeometryDevice).isComplete = false)
    ∧ (noGraphicsQueueDevice.geometryShader = 0
      ∨ (findQueueFamilies noGraphicsQueueDevice).isComplete = false)
    ∧ rateDevice noGeometryDevice = 0 ∧ rateDevice noGraphicsQueueDevice = 0 :=
  ⟨by decide, by decide,
    (rateDevice_eq_zero_of_unsuitable noGeometryDevice (by decide)).1,
    (rateDevice_eq_zero_of_unsuitable noGraphicsQueueDevice (by decide)).1⟩

/-- C2, as stated, fails: a discrete device with geometry shaders, a complete queue-family
set and both image limits equal to `2 ^ 31` (two `uint32_t` values) is rated 1000, not
`1000 + 2 ^ 31 + 2 ^ 31`: the sum of the two limits wraps in `uint32_t`. -/
theorem rateDevice_sum_wraps :
    hugeLimitsDevice.geometryShader ≠ 0
    ∧ (findQueueFamilies hugeLimitsDevice).isComplete = true
    ∧ hugeLimitsDevice.deviceType = VkPhysicalDeviceType.DISCRETE_GPU
    ∧ hugeLimitsDevice.maxImageDimension2D < 2 ^ 32
    ∧ hugeLimitsDevice.maxImageDimension3D < 2 ^ 32
    ∧ rateDevice hugeLimitsDevice = 1000
    ∧ rateDevice hugeLimitsDevice
        ≠ (1000 : Int) + hugeLimitsDevice.maxImageDimension2D
            + hugeLimitsDevice.maxImageDimension3D := by
  decide

/-- C2 (amended): for a physical device that supports geometry shaders and has a complete
queue-family set, the `int` returned by `rateDevice` is
`(1000 if discrete else 0) + maxImageDimension2D + maxImageDimension3D` reduced modulo
`2 ^ 32` into the 32-bit two's complement range; it equals that sum as a mathematical
integer whenever the sum is below `2 ^ 31`, and under that bound a discrete candidate is
rated exactly 1000 more than the same candidate with any other device type. -/
theorem rateDevice_score_of_suitable (d : VkPhysicalDevice) (hg : d.geometryShader ≠ 0)
    (hq : (findQueueFamilies d).isComplete = true) :
    rateDevice d = toInt32
        (discreteBonus d.deviceType + d.maxImageDimension2D + d.maxImageDimension3D)
    ∧ (discreteBonus d.deviceType + d.maxImageDimension2D + d.maxImageDimension3D < 2 ^ 31 →
        rateDevice d = (discreteBonus d.deviceType : Int) + (d.maxImageDimension2D : Int)
          + (d.maxImageDimension3D : Int))
    ∧ (∀ t : VkPhysicalDeviceType, d.deviceType = VkPhysicalDeviceType.DISCRETE_GPU →
        t ≠ VkPhysicalDeviceType.DISCRETE_GPU →
        1000 + d.maxImageDimension2D + d.maxImageDimension3D < 2 ^ 31 →
        rateDevice d = rateDevice { d with deviceType := t } + 1000) := by
  have hexact : ∀ e : VkPhysicalDevice, e.geometryShader ≠ 0 →
      (findQueueFamilies e).isComplete = true →
      discreteBonus e.deviceType + e.maxImageDimension2D + e.maxImageDimension3D < 2 ^ 31 →
      rateDevice e = (discreteBonus e.deviceType : Int) + (e.maxImageDimension2D : Int)
          + (e.maxImageDimension3D : Int) := by
    intro e heg heq hb
    rw [rateDevice_of_suitable e heg heq, toInt32_of_lt hb]
    push_cast
    rfl
  refine ⟨rateDevice_of_suitable d hg hq, hexact d hg hq, ?_⟩
  intro t hd ht hb
  have hbd : discreteBonus d.deviceType = 1000 := by simp [discreteBonus, hd]
  have hbt : discreteBonus t = 0 := by simp [discreteBonus, ht]
  have h1 := hexact d hg hq (by rw [hbd]; exact hb)
  have h2 := hexact { d with deviceType := t } hg hq (by
    show discreteBonus t + d.maxImageDimension2D + d.maxImageDimension3D < 2 ^ 31
    rw [hbt]; omega)
  rw [h1, h2, hbd]
  show _ = ((discreteBonus t : Nat) : Int) + (d.maxImageDimension2D : Int)
            + (d.maxImageDimension3D : Int) + 1000
  rw [hbt]
  push_cast
  ring

theorem rateDevice_score_of_suitable_witness :
    candidateA.geometryShader ≠ 0 ∧ (findQueueFamilies candidateA).isComplete = true
    ∧ rateDevice candidateA = 7144
    ∧ rateDevice candidateA
        = rateDevice { candidateA with deviceType := VkPhysicalDeviceType.INTEGRATED_GPU }
          + 1000 :=
  ⟨by decide, by decide,
    ((rateDevice_score_of_suitable candidateA (by decide) (by decide)).2.1
      (by decide)).trans (by decide),
    (rateDevice_score_of_suitable candidateA (by decide) (by decide)).2.2
      VkPhysicalDeviceType.INTEGRATED_GPU (by decide) (by decide) (by decide)⟩

/-! ## Helper lemmas on executions -/

theorem andThen_emit {β : Type} (e : Event) (f : Unit → Exec β) :
    (Exec.emit e).andThen f = { trace := e :: (f ()).trace, outcome := (f ()).outcome } :=
  rfl

/-! ## Validation layer check (C3) -/

theorem layerFound_iff (layerName : String) (availableLayers : List VkLayerProperties) :
    layerFound layerName availableLayers = true
      ↔ ∃ layer ∈ availableLayers, layer.layerName = layerName := by
  induction availableLayers with
  | nil => simp [layerFound]
  | cons layerProperties rest ih =>
    unfold layerFound
    by_cases heq : layerName = layerProperties.layerName
    · simp [heq]
    · have hne : ¬ layerProperties.layerName = layerName := fun h => heq h.symm
      simp [heq, hne, ih]

/-- C3: `areValidationLayersSupported` returns true if and only if every requested layer
name is equal, as a string, to the name of some available layer, and returns false if and
only if some requested name is the name of no available layer. -/
theorem areValidationLayersSupported_iff (requestedLayers : List String)
    (availableLayers : List VkLayerProperties) :
    (areValidationLayersSupported requestedLayers availableLayers = true
      ↔ ∀ name ∈ requestedLayers, ∃ layer ∈ availableLayers, layer.layerName = name)
    ∧ (areValidationLayersSupported requestedLayers availableLayers = false
      ↔ ∃ name ∈ requestedLayers, ∀ layer ∈ availableLayers, layer.layerName ≠ name) := by
  have htrue : areValidationLayersSupported requestedLayers availableLayers = true
      ↔ ∀ name ∈ requestedLayers, ∃ layer ∈ availableLayers, layer.layerName = name := by
    unfold areValidationLayersSupported
    induction requestedLayers with
    | nil => simp [areValidationLayersSupportedLoop]
    | cons layerName rest ih =>
      unfold areValidationLayersSupportedLoop
      by_cases hfound : layerFound layerName availableLayers = true
      · have hex := (layerFound_iff layerName availableLayers).mp hfound
        simp only [hfound, Bool.true_eq_false, if_false, ih, List.mem_cons, forall_eq_or_imp,
          hex, true_and]
      · have hnex : ¬ ∃ layer ∈ availableLayers, layer.layerName = layerName :=
          fun h => hfound ((layerFound_iff layerName availableLayers).mpr h)
        have hfalse : layerFound layerName availableLayers = false := by
          simpa using hfound
        simp only [hfalse, if_true, Bool.false_eq_true, List.mem_cons, forall_eq_or_imp,
          hnex, false_and]
  refine ⟨htrue, ?_⟩
  rw [← Bool.not_eq_true, htrue]
  push_neg
  rfl

theorem areValidationLayersSupported_iff_witness :
    areValidationLayersSupported ["VK_LAYER_KHRONOS_validation"]
        [{ layerName := "VK_LAYER_KHRONOS_validation" }, { layerName := "VK_LAYER_OTHER" }]
      = true
    ∧ areValidationLayersSupported ["VK_LAYER_KHRONOS_validation"]
        [{ layerName := "VK_LAYER_khronos_validation" }, { layerName := "VK_LAYER_OTHER" }]
      = false :=
  ⟨(areValidationLayersSupported_iff _ _).1.mpr (by decide),
    (areValidationLayersSupported_iff _ _).2.mpr (by decide)⟩

/-! ## Physical device selection (C4, C5, C6) -/

/-- The loop of lines 76-78 and the test of line 80, had the vector held the two
candidates of the scenario: the last entry of `scores` is candidate B with 12288. -/
theorem rateAll_scenario :
    (rateAll [candidateA, candidateB] []).outcome
      = Outcome.returned [(7144, candidateA), (12288, candidateB)] := by
  decide

/-- Whatever non-empty list of devices the runtime enumerates, `selectPhysicalDevice`
rates none of them and ends in the dereference of `scores.rbegin()` of an empty multimap. -/
theorem selectPhysicalDevice_of_devices (rt : Runtime) (h : rt.physicalDevices ≠ []) :
    selectPhysicalDevice rt
      = { trace := [Event.vkEnumeratePhysicalDevices, Event.vkEnumeratePhysicalDevices],
          outcome := Outcome.undefined } := by
  unfold selectPhysicalDevice
  simp [h, rateAll, Exec.andThen, Exec.emit, Exec.ret, Exec.undef]

/-- C4 (evaluation of the code on the selection scenario): with candidates A (rated 7144)
and B (rated 12288) enumerated, `selectPhysicalDevice` rates no device, because its vector
`physicalDevices` has no elements, and then dereferences `scores.rbegin()` of a multimap
without entries; it does not return candidate B. -/
theorem selectPhysicalDevice_scenario_undefined :
    rateDevice candidateA = 7144 ∧ rateDevice candidateB = 12288
    ∧ (selectPhysicalDevice { plainRuntime with physicalDevices := [candidateA, candidateB] }).trace
        = [Event.vkEnumeratePhysicalDevices, Event.vkEnumeratePhysicalDevices]
    ∧ (selectPhysicalDevice { plainRuntime with physicalDevices := [candidateA, candidateB] }).outcome
        = Outcome.undefined
    ∧ (selectPhysicalDevice { plainRuntime with physicalDevices := [candidateA, candidateB] }).outcome
        ≠ Outcome.returned candidateB := by
  decide

/-- C5 (evaluation of the code on one unsuitable device): with a single enumerated device
that is rated 0, `selectPhysicalDevice` rates no device and dereferences `scores.rbegin()`
of a multimap without entries; it does not throw "suitable GPU not found". -/
theorem selectPhysicalDevice_all_zero_undefined :
    rateDevice noGeometryDevice = 0
    ∧ (selectPhysicalDevice { plainRuntime with physicalDevices := [noGeometryDevice] }).trace
        = [Event.vkEnumeratePhysicalDevices, Event.vkEnumeratePhysicalDevices]
    ∧ (selectPhysicalDevice { plainRuntime with physicalDevices := [noGeometryDevice] }).outcome
        = Outcome.undefined
    ∧ (selectPhysicalDevice { plainRuntime with physicalDevices := [noGeometryDevice] }).outcome
        ≠ Outcome.thrown "suitable GPU not found" := by
  decide

/-- C6: when the runtime reports zero physical devices, `selectPhysicalDevice` throws
"Vulkan-supporting GPU not found", and `rateDevice` is called on no device before that. -/
theorem selectPhysicalDevice_no_device (rt : Runtime) (h : rt.physicalDevices = []) :
    (selectPhysicalDevice rt).outcome = Outcome.thrown "Vulkan-supporting GPU not found"
    ∧ (selectPhysicalDevice rt).trace = [Event.vkEnumeratePhysicalDevices]
    ∧ ∀ d : VkPhysicalDevice, Event.rateDevice d ∉ (selectPhysicalDevice rt).trace := by
  have hrun : selectPhysicalDevice rt
      = { trace := [Event.vkEnumeratePhysicalDevices],
          outcome := Outcome.thrown "Vulkan-supporting GPU not found" } := by
    unfold selectPhysicalDevice
    rw [andThen_emit]
    simp [h, Exec.raise]
  rw [hrun]
  simp

theorem selectPhysicalDevice_no_device_witness :
    ({ plainRuntime with physicalDevices := [] } : Runtime).physicalDevices = []
    ∧ (selectPhysicalDevice { plainRuntime with physicalDevices := [] }).outcome
        = Outcome.thrown "Vulkan-supporting GPU not found" :=
  ⟨rfl, (selectPhysicalDevice_no_device { plainRuntime with physicalDevices := [] } rfl).1⟩

/-! ## Extension report (C7) -/

theorem findSupported_eq (extension : VkExtensionProperties) (requested : List String) :
    findSupported extension requested
      = if extension.extensionName ∈ requested then some extension.extensionName
        else none := by
  induction requested with
  | nil => simp [findSupported]
  | cons supportedExtension rest ih =>
    unfold findSupported
    by_cases heq : supportedExtension = extension.extensionName
    · simp [heq]
    · have hne : ¬ extension.extensionName = supportedExtension := fun h => heq h.symm
      simp [heq, hne, ih]

theorem checkExtensionsLoop_eq (requested : List String)
    (available : List VkExtensionProperties) :
    checkExtensionsLoop requested available
      = ((extensionNames available).filter (fun n => decide (n ∈ requested)),
         (extensionNames available).filter (fun n => decide (n ∉ requested))) := by
  induction available with
  | nil => simp [checkExtensionsLoop, extensionNames]
  | cons extension rest ih =>
    unfold checkExtensionsLoop
    rw [findSupported_eq, ih]
    by_cases hmem : extension.extensionName ∈ requested
    · simp [hmem, extensionNames]
    · simp [hmem, extensionNames]

/-- C7, as stated, fails: with `VK_KHR_surface` and `VK_KHR_xcb_surface` requested and
`VK_KHR_surface` and `VK_EXT_debug_utils` available, the requested name
`VK_KHR_xcb_surface` does not occur in the available list and is not reported as
unsupported; the one name reported as unsupported is `VK_EXT_debug_utils`, which was not
requested. -/
theorem checkExtensions_unsupported_not_requested :
    "VK_KHR_xcb_surface" ∈ ["VK_KHR_surface", "VK_KHR_xcb_surface"]
    ∧ "VK_KHR_xcb_surface" ∉ ["VK_KHR_surface", "VK_EXT_debug_utils"]
    ∧ "VK_KHR_xcb_surface" ∉
        (checkExtensions ["VK_KHR_surface", "VK_KHR_xcb_surface"]
          [{ extensionName := "VK_KHR_surface" },
           { extensionName := "VK_EXT_debug_utils" }]).unsupportedPrinted
    ∧ (checkExtensions ["VK_KHR_surface", "VK_KHR_xcb_surface"]
          [{ extensionName := "VK_KHR_surface" },
           { extensionName := "VK_EXT_debug_utils" }]).unsupportedPrinted
        = ["VK_EXT_debug_utils"]
    ∧ (checkExtensions ["VK_KHR_surface", "VK_KHR_xcb_surface"]
          [{ extensionName := "VK_KHR_surface" },
           { extensionName := "VK_EXT_debug_utils" }]).unsupportedCount = some 1
    ∧ "VK_EXT_debug_utils" ∉ ["VK_KHR_surface", "VK_KHR_xcb_surface"] := by
  decide

/-- C7 (amended): `checkExtensions` partitions the names of the available extensions by
membership in the requested list: the names it prints as supported are exactly the
requested names that occur in the available list (listed in the order of the available
list, after a count that is the number of requested names), the names it reports as
unsupported are exactly the available names that do not occur in the requested list, the
count printed before them is their number, and no error is raised: `createInstance`
proceeds to instance creation whatever the two lists are. -/
theorem checkExtensions_partitions_available (requested : List String)
    (available : List VkExtensionProperties) :
    (checkExtensions requested available).supportedPrinted
      = (extensionNames available).filter (fun n => decide (n ∈ requested))
    ∧ (∀ n : String, n ∈ (checkExtensions requested available).supportedPrinted
        ↔ n ∈ requested ∧ n ∈ extensionNames available)
    ∧ (checkExtensions requested available).unsupportedPrinted
      = (extensionNames available).filter (fun n => decide (n ∉ requested))
    ∧ (∀ n : String, n ∈ (checkExtensions requested available).unsupportedPrinted
        ↔ n ∈ extensionNames available ∧ n ∉ requested)
    ∧ (checkExtensions requested available).unsupportedCount
      = (if (checkExtensions requested available).unsupportedPrinted = [] then none
         else some (checkExtensions requested available).unsupportedPrinted.length)
    ∧ (checkExtensions requested available).supportedCount
      = (if requested = [] then none else some requested.length)
    ∧ (∀ rt : Runtime, rt.vkCreateInstanceResult = VK_SUCCESS →
        (createInstance false rt).outcome = Outcome.returned ()) := by
  have hs : (checkExtensions requested available).supportedPrinted
      = (extensionNames available).filter (fun n => decide (n ∈ requested)) := by
    simp [checkExtensions, checkExtensionsLoop_eq]
  have hu : (checkExtensions requested available).unsupportedPrinted
      = (extensionNames available).filter (fun n => decide (n ∉ requested)) := by
    simp [checkExtensions, checkExtensionsLoop_eq]
  refine ⟨hs, ?_, hu, ?_, ?_, ?_, ?_⟩
  · intro n
    rw [hs, List.mem_filter]
    simp [and_comm]
  · intro n
    rw [hu, List.mem_filter]
    simp
  · rw [hu]
    simp only [checkExtensions, checkExtensionsLoop_eq]
    split <;> simp_all
  · simp only [checkExtensions]
    split <;> simp_all
  · intro rt hok
    simp [createInstance, andThen_emit, hok, Exec.ret]

theorem checkExtensions_partitions_available_witness :
    (checkExtensions ["VK_KHR_surface", "VK_KHR_xcb_surface"]
        [{ extensionName := "VK_KHR_surface" },
         { extensionName := "VK_EXT_debug_utils" }]).unsupportedPrinted
      = ["VK_EXT_debug_utils"]
    ∧ (createInstance false plainRuntime).outcome = Outcome.returned () :=
  ⟨(checkExtensions_partitions_available _ _).2.2.1.trans (by decide),
    (checkExtensions_partitions_available [] []).2.2.2.2.2.2 plainRuntime (by decide)⟩

/-! ## Helper lemmas on the steps of a run -/

theorem initWindow_eq :
    initWindow = { trace := [Event.glfwInit, Event.glfwWindowHint,
                     Event.glfwCreateWindow 1440 900],
                   outcome := Outcome.returned () } :=
  rfl

theorem mainLoopFrom_eq (polls : Nat) :
    mainLoopFrom polls = { trace := List.replicate polls Event.glfwPollEvents,
                           outcome := Outcome.returned () } := by
  induction polls with
  | zero => rfl
  | succ n ih =>
    unfold mainLoopFrom
    rw [andThen_emit, ih]
    rfl

theorem createInstance_eq (enableValidationLayers : Bool) (rt : Runtime) :
    createInstance enableValidationLayers rt
      = if (enableValidationLayers
            && !areValidationLayersSupported validationLayers rt.availableLayers) = true then
          { trace := [], outcome := Outcome.thrown "requested validation layers are unavailable" }
        else
          { trace :=
              [Event.stdout (checkExtensions (getRequiredExtensions enableValidationLayers rt)
                  rt.availableExtensions),
               Event.vkCreateInstance (getRequiredExtensions enableValidationLayers rt)
                  (if enableValidationLayers then validationLayers else [])
                  enableValidationLayers],
            outcome :=
              if rt.vkCreateInstanceResult ≠ VK_SUCCESS then
                Outcome.thrown "Instantiation failed."
              else Outcome.returned () } := by
  unfold createInstance
  split
  · rfl
  · by_cases hr : rt.vkCreateInstanceResult = VK_SUCCESS
    · simp [hr, Exec.andThen, Exec.emit, Exec.ret]
    · simp [hr, Exec.andThen, Exec.emit, Exec.raise]

theorem setupDebugMessenger_eq (enableValidationLayers : Bool) (rt : Runtime) :
    setupDebugMessenger enableValidationLayers rt
      = if enableValidationLayers = false then
          { trace := [], outcome := Outcome.returned () }
        else if rt.procAddrResolved "vkCreateDebugUtilsMessengerEXT" = true then
          { trace := [Event.vkCreateDebugUtilsMessengerEXT],
            outcome :=
              if rt.vkCreateDebugUtilsMessengerResult ≠ VK_SUCCESS then
                Outcome.thrown "Debug messenger setup failed."
              else Outcome.returned () }
        else
          { trace := [], outcome := Outcome.thrown "Debug messenger setup failed." } := by
  unfold setupDebugMessenger createDebugUtilsMessengerEXT
  cases enableValidationLayers with
  | false => rfl
  | true =>
    by_cases hp : rt.procAddrResolved "vkCreateDebugUtilsMessengerEXT" = true
    · by_cases hr : rt.vkCreateDebugUtilsMessengerResult = VK_SUCCESS
      · simp [hp, hr, Exec.andThen, Exec.emit, Exec.ret]
      · simp [hp, hr, Exec.andThen, Exec.emit, Exec.ret, Exec.raise]
    · have hne : VK_ERROR_EXTENSION_NOT_PRESENT ≠ VK_SUCCESS := by decide
      simp [hp, hne, Exec.andThen, Exec.ret, Exec.raise]

theorem cleanup_eq (enableValidationLayers : Bool) (rt : Runtime) :
    cleanup enableValidationLayers rt
      = { trace :=
            (if (enableValidationLayers
                  && rt.procAddrResolved "vkDestroyDebugUtilsMessengerEXT") = true then
              [Event.vkDestroyDebugUtilsMessengerEXT] else [])
            ++ [Event.vkDestroyInstance, Event.glfwDestroyWindow, Event.glfwTerminate],
          outcome := Outcome.returned () } := by
  unfold cleanup destroyDebugUtilsMessengerEXT
  cases enableValidationLayers with
  | false => simp [Exec.andThen, Exec.emit, Exec.ret]
  | true =>
    by_cases hp : rt.procAddrResolved "vkDestroyDebugUtilsMessengerEXT" = true
    · simp [hp, Exec.andThen, Exec.emit]
    · simp [hp, Exec.andThen, Exec.emit, Exec.ret]

/-- The trace and outcome of `run`, by cases on what the environment answers. -/
theorem run_eq (enableValidationLayers : Bool) (rt : Runtime) :
    run enableValidationLayers rt
      = (({ trace := [Event.glfwInit, Event.glfwWindowHint, Event.glfwCreateWindow 1440 900],
            outcome := Outcome.returned () } : Exec Unit).andThen fun _ =>
        ((createInstance enableValidationLayers rt).andThen fun _ =>
          setupDebugMessenger enableValidationLayers rt).andThen fun _ =>
        ({ trace := List.replicate rt.pollsBeforeClose Event.glfwPollEvents,
           outcome := Outcome.returned () } : Exec Unit).andThen fun _ =>
        cleanup enableValidationLayers rt) := by
  unfold run initVulkan mainLoop
  rw [initWindow_eq, mainLoopFrom_eq]

/-! ## Instance creation gate (C8) -/

/-- C8: when validation is enabled and `areValidationLayersSupported` returns false,
`createInstance` throws "requested validation layers are unavailable" before any call, the
run ends with that error, and `vkCreateInstance` is never called; when validation is
disabled, or the layer check returns true, that error is not raised. -/
theorem createInstance_validation_gate (enableValidationLayers : Bool) (rt : Runtime) :
    (enableValidationLayers = true →
      areValidationLayersSupported validationLayers rt.availableLayers = false →
        (createInstance enableValidationLayers rt).outcome
            = Outcome.thrown "requested validation layers are unavailable"
        ∧ (createInstance enableValidationLayers rt).trace = []
        ∧ (run enableValidationLayers rt).outcome
            = Outcome.thrown "requested validation layers are unavailable"
        ∧ ∀ (extensions layers : List String) (chained : Bool),
            Event.vkCreateInstance extensions layers chained
              ∉ (run enableValidationLayers rt).trace)
    ∧ (enableValidationLayers = false
        ∨ areValidationLayersSupported validationLayers rt.availableLayers = true →
        (createInstance enableValidationLayers rt).outcome
            ≠ Outcome.thrown "requested validation layers are unavailable"
        ∧ (run enableValidationLayers rt).outcome
            ≠ Outcome.thrown "requested validation layers are unavailable") := by
  have hs1 : ("Instantiation failed." : String)
      ≠ "requested validation layers are unavailable" := by decide
  have hs2 : ("Debug messenger setup failed." : String)
      ≠ "requested validation layers are unavailable" := by decide
  constructor
  · intro he hl
    rw [run_eq, createInstance_eq]
    simp [he, hl, Exec.andThen]
  · intro h
    have hgate : ¬ (enableValidationLayers
        && !areValidationLayersSupported validationLayers rt.availableLayers) = true := by
      rcases h with h | h <;> simp [h]
    rw [run_eq, createInstance_eq, setupDebugMessenger_eq, cleanup_eq, if_neg hgate]
    by_cases hr : rt.vkCreateInstanceResult = VK_SUCCESS
    · by_cases he : enableValidationLayers = false
      · simp [hr, he, Exec.andThen]
      · by_cases hp : rt.procAddrResolved "vkCreateDebugUtilsMessengerEXT" = true
        · by_cases hm : rt.vkCreateDebugUtilsMessengerResult = VK_SUCCESS
          · simp [hr, he, hp, hm, Exec.andThen]
          · simp [hr, he, hp, hm, hs2, Exec.andThen]
        · simp [hr, he, hp, hs2, Exec.andThen]
    · simp [hr, hs1, Exec.andThen]

theorem createInstance_validation_gate_witness :
    areValidationLayersSupported validationLayers
        ({ plainRuntime with availableLayers := [{ layerName := "VK_LAYER_OTHER" }] }
          : Runtime).availableLayers = false
    ∧ (createInstance true
        { plainRuntime with availableLayers := [{ layerName := "VK_LAYER_OTHER" }] }).outcome
        = Outcome.thrown "requested validation layers are unavailable"
    ∧ areValidationLayersSupported validationLayers plainRuntime.availableLayers = true
    ∧ (createInstance true plainRuntime).outcome
        ≠ Outcome.thrown "requested validation layers are unavailable" :=
  ⟨by decide,
    ((createInstance_validation_gate true
      { plainRuntime with availableLayers := [{ layerName := "VK_LAYER_OTHER" }] }).1
        rfl (by decide)).1,
    by decide,
    ((createInstance_validation_gate true plainRuntime).2 (Or.inr (by decide))).1⟩

/-! ## Order of the steps of a run (C9) -/

/-- C9 (evaluation of the code): the run on `plainRuntime` without validation raises no
error and consists of window creation, instance creation, two polls and teardown; in no
run, whatever the build switch and the environment, does the trace contain a call of
physical device selection (`vkEnumeratePhysicalDevices`, `rateDevice`): `run` and
`initVulkan` never call `selectPhysicalDevice`. -/
theorem run_never_selects_device (enableValidationLayers : Bool) (rt : Runtime) :
    (run false plainRuntime).outcome = Outcome.returned ()
    ∧ (run false plainRuntime).trace
        = [Event.glfwInit, Event.glfwWindowHint, Event.glfwCreateWindow 1440 900,
           Event.stdout (checkExtensions ["VK_KHR_surface", "VK_KHR_xcb_surface"]
              plainRuntime.availableExtensions),
           Event.vkCreateInstance ["VK_KHR_surface", "VK_KHR_xcb_surface"] [] false,
           Event.glfwPollEvents, Event.glfwPollEvents,
           Event.vkDestroyInstance, Event.glfwDestroyWindow, Event.glfwTerminate]
    ∧ (run enableValidationLayers rt).trace.all (fun e => !e.isDeviceSelection) = true := by
  refine ⟨by decide, by decide, ?_⟩
  rw [run_eq, createInstance_eq, setupDebugMessenger_eq, cleanup_eq]
  by_cases hgate : (enableValidationLayers
      && !areValidationLayersSupported validationLayers rt.availableLayers) = true
  · simp [hgate, Exec.andThen, Event.isDeviceSelection]
  · rw [if_neg hgate]
    by_cases hr : rt.vkCreateInstanceResult = VK_SUCCESS
    · by_cases he : enableValidationLayers = false
      · simp [hr, he, Exec.andThen, Event.isDeviceSelection]
      · by_cases hp : rt.procAddrResolved "vkCreateDebugUtilsMessengerEXT" = true
        · by_cases hm : rt.vkCreateDebugUtilsMessengerResult = VK_SUCCESS
          · by_cases hd : rt.procAddrResolved "vkDestroyDebugUtilsMessengerEXT" = true
            · simp [hr, he, hp, hm, hd, Exec.andThen, Event.isDeviceSelection]
            · simp [hr, he, hp, hm, hd, Exec.andThen, Event.isDeviceSelection]
          · simp [hr, he, hp, hm, Exec.andThen, Event.isDeviceSelection]
        · simp [hr, he, hp, Exec.andThen, Event.isDeviceSelection]
    · simp [hr, Exec.andThen, Event.isDeviceSelection]

/-! ## Teardown order (C10) -/

theorem acquired_replicate_poll (n : Nat) :
    acquired (List.replicate n Event.glfwPollEvents) = [] := by
  induction n with
  | zero => rfl
  | succ k ih =>
    have hstep : acquired (Event.glfwPollEvents :: List.replicate k Event.glfwPollEvents)
        = acquired (List.replicate k Event.glfwPollEvents) := rfl
    rw [List.replicate_succ, hstep, ih]

theorem released_replicate_poll (n : Nat) :
    released (List.replicate n Event.glfwPollEvents) = [] := by
  induction n with
  | zero => rfl
  | succ k ih =>
    have hstep : released (Event.glfwPollEvents :: List.replicate k Event.glfwPollEvents)
        = released (List.replicate k Event.glfwPollEvents) := rfl
    rw [List.replicate_succ, hstep, ih]

theorem acquired_append (xs ys : List Event) :
    acquired (xs ++ ys) = acquired xs ++ acquired ys := by
  simp [acquired, List.filterMap_append]

theorem released_append (xs ys : List Event) :
    released (xs ++ ys) = released xs ++ released ys := by
  simp [released, List.filterMap_append]

/-- C10: in every run that raises no error (the loader resolving
`vkDestroyDebugUtilsMessengerEXT` whenever it resolved `vkCreateDebugUtilsMessengerEXT`),
`cleanup` destroys the debug messenger first, and only when validation is enabled, then
the instance, then the window, and then terminates the windowing subsystem; these are the
only releases of the run, they happen in the exact reverse of the order of acquisition,
each resource is released exactly once, and the debug messenger was created exactly when
validation is enabled. -/
theorem cleanup_reverse_order (enableValidationLayers : Bool) (rt : Runtime)
    (hloader : rt.procAddrResolved "vkCreateDebugUtilsMessengerEXT" = true →
      rt.procAddrResolved "vkDestroyDebugUtilsMessengerEXT" = true)
    (hrun : (run enableValidationLayers rt).outcome = Outcome.returned ()) :
    (cleanup enableValidationLayers rt).trace
        = (if enableValidationLayers = true then [Event.vkDestroyDebugUtilsMessengerEXT]
           else [])
          ++ [Event.vkDestroyInstance, Event.glfwDestroyWindow, Event.glfwTerminate]
    ∧ (∃ before : List Event,
        (run enableValidationLayers rt).trace
            = before ++ (cleanup enableValidationLayers rt).trace
        ∧ released before = [])
    ∧ released (run enableValidationLayers rt).trace
        = (acquired (run enableValidationLayers rt).trace).reverse
    ∧ released (run enableValidationLayers rt).trace
        = (if enableValidationLayers = true then [Resource.debugMessenger] else [])
          ++ [Resource.vkInstance, Resource.window, Resource.windowingSubsystem]
    ∧ (released (run enableValidationLayers rt).trace).Nodup
    ∧ (Resource.debugMessenger ∈ acquired (run enableValidationLayers rt).trace
        ↔ enableValidationLayers = true) := by
  rw [run_eq, createInstance_eq, setupDebugMessenger_eq, cleanup_eq] at hrun
  rw [run_eq, createInstance_eq, setupDebugMessenger_eq, cleanup_eq]
  by_cases hgate : (enableValidationLayers
      && !areValidationLayersSupported validationLayers rt.availableLayers) = true
  · simp [hgate, Exec.andThen] at hrun
  · rw [if_neg hgate] at hrun ⊢
    by_cases hr : rt.vkCreateInstanceResult = VK_SUCCESS
    · cases enableValidationLayers with
      | false =>
        refine ⟨by simp, ⟨[Event.glfwInit, Event.glfwWindowHint,
          Event.glfwCreateWindow 1440 900,
          Event.stdout (checkExtensions (getRequiredExtensions false rt)
            rt.availableExtensions),
          Event.vkCreateInstance (getRequiredExtensions false rt) [] false]
          ++ List.replicate rt.pollsBeforeClose Event.glfwPollEvents, ?_, ?_⟩, ?_⟩
        · simp [hr, Exec.andThen]
        · simp [released_append, released_replicate_poll, released, Event.releases]
        · simp [hr, Exec.andThen, acquired_append, released_append,
            acquired_replicate_poll, released_replicate_poll, acquired, released,
            Event.acquires, Event.releases]
      | true =>
        by_cases hp : rt.procAddrResolved "vkCreateDebugUtilsMessengerEXT" = true
        · have hd := hloader hp
          by_cases hm : rt.vkCreateDebugUtilsMessengerResult = VK_SUCCESS
          · refine ⟨by simp [hd], ⟨[Event.glfwInit, Event.glfwWindowHint,
              Event.glfwCreateWindow 1440 900,
              Event.stdout (checkExtensions (getRequiredExtensions true rt)
                rt.availableExtensions),
              Event.vkCreateInstance (getRequiredExtensions true rt) validationLayers true,
              Event.vkCreateDebugUtilsMessengerEXT]
              ++ List.replicate rt.pollsBeforeClose Event.glfwPollEvents, ?_, ?_⟩, ?_⟩
            · simp [hr, hp, hm, hd, Exec.andThen]
            · simp [released_append, released_replicate_poll, released, Event.releases]
            · simp [hr, hp, hm, hd, Exec.andThen, acquired_append, released_append,
                acquired_replicate_poll, released_replicate_poll, acquired, released,
                Event.acquires, Event.releases]
          · simp [hr, hp, hm, Exec.andThen] at hrun
        · simp [hr, hp, Exec.andThen] at hrun
    · simp [hr, Exec.andThen] at hrun

theorem cleanup_reverse_order_witness :
    (run true plainRuntime).outcome = Outcome.returned ()
    ∧ (cleanup true plainRuntime).trace
        = [Event.vkDestroyDebugUtilsMessengerEXT, Event.vkDestroyInstance,
           Event.glfwDestroyWindow, Event.glfwTerminate]
    ∧ released (run true plainRuntime).trace
        = (acquired (run true plainRuntime).trace).reverse :=
  ⟨by decide,
    (cleanup_reverse_order true plainRuntime (fun _ => rfl) (by decide)).1,
    (cleanup_reverse_order true plainRuntime (fun _ => rfl) (by decide)).2.2.1⟩

end GameEngine
